import Mathlib

/-!
Verification of the spectral-estimation core of PySPOD (`pyspod/spod_base.py`).

The definitions below are a shallow embedding of the Python source:
machine integers become `Nat`/`Int`, floating-point quantities become `ℚ`,
numpy arrays become lists or functions out of `Fin`, fallible code returns
`Option`/`Except`, and the filesystem is modelled as a predicate on file
names.  Each definition carries a comment pointing at the source lines it
embeds.
-/

/-- Python `'{:04d}'.format(n)` for a nonnegative `n`: decimal digits,
left-padded with zeros to a minimum width of 4. -/
def format04 (n : Nat) : String :=
  let s := toString n
  if s.length < 4 then String.mk (List.replicate (4 - s.length) '0') ++ s else s

/-- File name of one FFT block artifact,
`'fft_block{:04d}_freq{:04d}.npy'.format(iBlk,iFreq)`
(spod_base.py lines 519-520 and 822). -/
def fft_filename (iBlk iFreq : Nat) : String :=
  "fft_block" ++ format04 iBlk ++ "_freq" ++ format04 iFreq ++ ".npy"

/-- `SPOD_base._are_blocks_present` (spod_base.py lines 512-532): counts, for
each block, how many of its per-frequency files exist (`all_freq_exist`),
counts the blocks whose count equals `n_freq` (`all_blocks_exist`), and
returns whether that equals `n_blocks`.  The filesystem is the predicate
`fs` on file names. -/
def are_blocks_present (n_blocks n_freq : Nat) (fs : String → Bool) : Bool :=
  let all_blocks_exist :=
    (List.range n_blocks).foldl (fun acc iBlk =>
      let all_freq_exist :=
        (List.range n_freq).foldl (fun a iFreq =>
          if fs (fft_filename iBlk iFreq) then a + 1 else a) 0
      if all_freq_exist = n_freq then acc + 1 else acc) 0
  decide (all_blocks_exist = n_blocks)

lemma count_fold_le (p : α → Prop) [DecidablePred p] (l : List α) (a : Nat) :
    l.foldl (fun acc x => if p x then acc + 1 else acc) a ≤ a + l.length := by
  induction l generalizing a with
  | nil => simp
  | cons x xs ih =>
    by_cases h : p x
    · simp only [List.foldl_cons, if_pos h, List.length_cons]
      have := ih (a + 1)
      omega
    · simp only [List.foldl_cons, if_neg h, List.length_cons]
      have := ih a
      omega

lemma count_fold_eq_length_iff (p : α → Prop) [DecidablePred p] (l : List α) (a : Nat) :
    l.foldl (fun acc x => if p x then acc + 1 else acc) a = a + l.length ↔
      ∀ x ∈ l, p x := by
  induction l generalizing a with
  | nil => simp
  | cons x xs ih =>
    by_cases h : p x
    · simp only [List.foldl_cons, if_pos h, List.length_cons, List.mem_cons]
      rw [show a + (xs.length + 1) = (a + 1) + xs.length by omega, ih (a + 1)]
      constructor
      · intro hall y hy
        rcases hy with hy | hy
        · exact hy ▸ h
        · exact hall y hy
      · intro hall y hy
        exact hall y (Or.inr hy)
    · simp only [List.foldl_cons, if_neg h, List.length_cons, List.mem_cons]
      constructor
      · intro heq
        have := count_fold_le p xs a
        omega
      · intro hall
        exact absurd (hall x (Or.inl rfl)) h

lemma count_fold_range_eq_iff (p : Nat → Prop) [DecidablePred p] (n : Nat) :
    (List.range n).foldl (fun acc x => if p x then acc + 1 else acc) 0 = n ↔
      ∀ x < n, p x := by
  have := count_fold_eq_length_iff p (List.range n) 0
  simpa [List.length_range, List.mem_range] using this

/- ## Window/Frequency Parameter Resolver (spod_base.py, `parse_parameters`) -/

/-- The `n_FFT` parameter: the literal string `'default'`, a single integer
window length, or an explicit window-coefficient array (spod_base.py lines
323-341).  An integer is converted by the code to a size-1 array, so a size-1
coefficient array and an integer behave identically. -/
inductive WindowParam where
  | wdefault : WindowParam
  | ofInt : Int → WindowParam
  | ofArray : List ℚ → WindowParam

/-- The `n_overlap` parameter: the literal string `'default'` or an explicit
integer (spod_base.py lines 356-364). -/
inductive OverlapParam where
  | odefault : OverlapParam
  | val : Int → OverlapParam

/-- Resolved window length `n_DFT` before the `int` cast, as the code computes
it (spod_base.py lines 323-341):
`'default'` gives `2**(np.floor(np.log2(nt/10)))`; an integer or size-1 array
gives its (possibly fractional) value; a longer array gives its length. -/
def resolved_nDFT (nt : Nat) : WindowParam → ℚ
  | .wdefault => (2 : ℚ) ^ (Int.log 2 ((nt : ℚ) / 10))
  | .ofInt n => (n : ℚ)
  | .ofArray ws => if ws.length = 1 then ws.headI else (ws.length : ℚ)

/-- Resolved block overlap before validity checks (spod_base.py lines
356-364): `'default'` gives `np.floor(n_DFT/2)`, an explicit value is used
as given. -/
def resolved_nov (nt : Nat) (w : WindowParam) : OverlapParam → ℚ
  | .odefault => ((⌊resolved_nDFT nt w / 2⌋ : Int) : ℚ)
  | .val v => (v : ℚ)

/-- `n_blocks = np.floor((nt - n_overlap) / (n_DFT - n_overlap))`
(spod_base.py line 367). -/
def resolved_nblocks (nt : Nat) (w : WindowParam) (o : OverlapParam) : ℚ :=
  ((⌊((nt : ℚ) - resolved_nov nt w o) / (resolved_nDFT nt w - resolved_nov nt w o)⌋ : Int) : ℚ)

/-- The spectral-estimation slice of `SPOD_base.parse_parameters`
(spod_base.py lines 312-376): resolve the window into `n_DFT`, resolve the
overlap (raising `'Overlap is too large'` when an explicit overlap exceeds
`n_DFT - 1`), compute `n_blocks`, raise
`'Spectral estimation parameters not meaningful.'` when `n_DFT < 4` or
`n_blocks < 2`, and otherwise return the three quantities cast to integers. -/
def parse_spectral (nt : Nat) (w : WindowParam) (o : OverlapParam) :
    Except String (Int × Int × Int) :=
  let n_DFT := resolved_nDFT nt w
  let step : ℚ → Except String (Int × Int × Int) := fun nov =>
    let n_blocks := resolved_nblocks nt w o
    if n_DFT < 4 ∨ n_blocks < 2 then
      .error "Spectral estimation parameters not meaningful."
    else
      .ok (⌊n_DFT⌋, ⌊nov⌋, ⌊n_blocks⌋)
  match o with
  | .odefault => step (resolved_nov nt w .odefault)
  | .val v => if (v : ℚ) > n_DFT - 1 then .error "Overlap is too large" else step ((v : Int) : ℚ)

/-- The frequency axis of `parse_parameters` (spod_base.py lines 414-423).
Here `n_DFT` is the integer value after the cast on line 374 and `dt` the
time step.  One-sided (real data): `np.arange(0,np.ceil(n_DFT/2)+1,1)/n_DFT/dt`.
Two-sided (complex data): `np.arange(0,n_DFT,1)/dt/n_DFT`, with `1/dt`
subtracted from the entries starting at index `int(n_DFT/2)+1` for even
`n_DFT`.  For odd `n_DFT` the slice index on line 422 is `(n_DFT+1)/2+1`,
which under the module's `from __future__ import division` is a float
(e.g. `4.0` for `n_DFT = 5`); numpy rejects float slice indices, so the
two-sided odd case raises a `TypeError` instead of producing an axis. -/
def freq_axis (isrealx : Bool) (n_DFT : Nat) (dt : ℚ) : Except String (List ℚ) :=
  if isrealx then
    .ok ((List.range ((n_DFT + 1) / 2 + 1)).map (fun (k : Nat) => (k : ℚ) / (n_DFT : ℚ) / dt))
  else
    if n_DFT % 2 = 0 then
      let wrapStart := n_DFT / 2 + 1
      .ok ((List.range n_DFT).map (fun k =>
        if wrapStart ≤ k then (k : ℚ) / dt / (n_DFT : ℚ) - 1 / dt
        else (k : ℚ) / dt / (n_DFT : ℚ)))
    else
      .error "TypeError: slice indices must be integers"

/- ## Data Access Adapter and longtime mean -/

/-- The internal `data_handler` installed by `SPOD_base.__init__` for fully
loaded data (spod_base.py lines 51-55): when `t_0 == t_end` it selects the
single time index `t_0`, otherwise the indices `t_0, ..., t_end-1`; an index
outside the data raises `IndexError`, modelled by `none`.  A time frame is a
spatial field `ι → ℚ`. -/
def data_handler_default {ι : Type} (data : List (ι → ℚ)) (t_0 t_end : Nat) :
    Option (List (ι → ℚ)) :=
  let ti := if t_0 = t_end then List.range' t_0 1 else List.range' t_0 (t_end - t_0)
  ti.mapM (fun t => data[t]?)

/-- The `'longtime'` mean of `parse_parameters` (spod_base.py lines 380-397):
split `[0,nt)` into `n_blocks` chunks of `nt // n_blocks` frames, sum the
frames of each chunk through the data handler, add the frames of the final
remainder chunk `[nt - nt % n_blocks, nt)`, and divide by `nt`. -/
def longtime_mean {ι : Type} (nt : Nat) (data : List (ι → ℚ)) (n_blocks : Nat) :
    Option (ι → ℚ) :=
  let split_block := nt / n_blocks
  let split_res := nt % n_blocks
  (do
    let chunks ← (List.range n_blocks).mapM (fun iBlk =>
      data_handler_default data (iBlk * split_block) (iBlk * split_block + split_block))
    let last ← data_handler_default data (nt - split_res) nt
    pure (fun i => (((chunks.flatten ++ last).map (fun f => f i)).sum / (nt : ℚ))))

/- ## Mean policy dispatch -/

/-- Python's `str.lower()` (for the ASCII keywords at hand): lowercase every
character. -/
def str_lower (s : String) : String := String.mk (s.data.map Char.toLower)

/-- The `mean` parameter: a string keyword or an explicit array
(spod_base.py lines 379-412). -/
inductive MeanParam (ι : Type) where
  | str : String → MeanParam ι
  | arr : (ι → ℚ) → MeanParam ι

/-- Mean-policy dispatch of `parse_parameters` (spod_base.py lines 379-412).
Returns the mean (a field or the scalar `0`), the `mean_name`, and whether a
(non-fatal) warning was emitted; a `ValueError` or an `IndexError` from the
longtime summation becomes `.error`.  Note the accepted keywords on the
string branch: `'longtime'`, `'blockwise'` and `'0'` (the latter named
`'zero'` and warned about); anything else raises. -/
def resolve_mean {ι : Type} (nt n_blocks : Nat) (data : List (ι → ℚ)) :
    MeanParam ι → Except String (((ι → ℚ) ⊕ ℚ) × String × Bool)
  | .str s =>
    if str_lower s = "longtime" then
      match longtime_mean nt data n_blocks with
      | some m => .ok (.inl m, "longtime", false)
      | none => .error "IndexError: time index out of bounds"
    else if str_lower s = "blockwise" then .ok (.inr 0, "blockwise", false)
    else if str_lower s = "0" then .ok (.inr 0, "zero", true)
    else .error "not recognized."
  | .arr m => .ok (.inl m, "user-specified", false)

/- ## Inner-product weights -/

/-- A numpy array: its shape and its flattened (row-major) data.
`np.size` is the length of the flattened data. -/
structure NDArray where
  shape : List Nat
  data : List ℚ
deriving DecidableEq

/-- Weights resolution of `parse_parameters` (spod_base.py lines 343-354):
a provided array whose size differs from `nx*nv` raises; one whose shape is
not `(nx, nv)` is reshaped to `(nx*nv, 1)`; one whose shape is exactly
`(nx, nv)` is kept as is; absent weights default to uniform ones of shape
`(nx*nv, 1)`.  Returns the array and the `weights_name`. -/
def resolve_weights (nx nv : Nat) : Option NDArray → Except String (NDArray × String)
  | some w =>
    if w.data.length ≠ nx * nv then
      .error "parameter weights must have the same spatial dimensions as data."
    else if w.shape ≠ [nx, nv] then
      .ok (⟨[nx * nv, 1], w.data⟩, "user-specified")
    else
      .ok (w, "user-specified")
  | none => .ok (⟨[nx * nv, 1], List.replicate (nx * nv) 1⟩, "uniform")

/- ## Modal Coefficient Projector (`SPOD_base.get_coefficients`) -/

/-- A complex number as a pair of rationals (real part, imaginary part). -/
abbrev CQ : Type := ℚ × ℚ

/-- Complex addition on `CQ`. -/
def cadd (a b : CQ) : CQ := (a.1 + b.1, a.2 + b.2)

/-- Complex multiplication on `CQ`. -/
def cmul (a b : CQ) : CQ := (a.1 * b.1 - a.2 * b.2, a.1 * b.2 + a.2 * b.1)

/-- Complex conjugation on `CQ`. -/
def cconj (a : CQ) : CQ := (a.1, -a.2)

/-- Sum of a list of complex numbers. -/
def csum (l : List CQ) : CQ := l.foldr cadd ((0 : ℚ), (0 : ℚ))

/-- numpy matrix transpose `A.T` (no conjugation). -/
def matT {m n : Nat} (A : Fin m → Fin n → CQ) : Fin n → Fin m → CQ :=
  fun i j => A j i

/-- Conjugate transpose `A^H` (transpose with entrywise conjugation). -/
def matH {m n : Nat} (A : Fin m → Fin n → CQ) : Fin n → Fin m → CQ :=
  fun i j => cconj (A j i)

/-- numpy `np.matmul` on complex matrices. -/
def matmulC {m k n : Nat} (A : Fin m → Fin k → CQ) (B : Fin k → Fin n → CQ) :
    Fin m → Fin n → CQ :=
  fun i j => csum ((List.finRange k).map (fun x => cmul (A i x) (B x j)))

/-- numpy broadcast `Q_hat_f * weights` of an `(nx, n_blocks)` matrix with an
`(nx, 1)` weight column: row `x` of `Q` is scaled by `w x`. -/
def weightQ {nx nb : Nat} (Q : Fin nx → Fin nb → CQ) (w : Fin nx → CQ) :
    Fin nx → Fin nb → CQ :=
  fun x b => cmul (Q x b) (w x)

/-- The coefficient matrix computed by `SPOD_base.get_coefficients`
(spod_base.py line 830): `a_k = np.matmul(Psi.T, Q_hat_f * self._weights).T`,
where `Psi` is the loaded mode matrix reshaped to `(nx, n_modes_save)` and
`Q_hat_f` the `(nx, n_blocks)` matrix of loaded FFT blocks. -/
def get_coefficients_a_k {nx nb nm : Nat} (Psi : Fin nx → Fin nm → CQ)
    (Q_hat_f : Fin nx → Fin nb → CQ) (w : Fin nx → CQ) : Fin nb → Fin nm → CQ :=
  matT (matmulC (matT Psi) (weightQ Q_hat_f w))

/-- Modelled from the spec for comparison (refinement target of claim C1):
`a_k = (Psi^H · (Q_hat_f ⊙ weights))^T`, the conjugate-transpose variant the
specification describes. -/
def a_k_spec_conjugate {nx nb nm : Nat} (Psi : Fin nx → Fin nm → CQ)
    (Q_hat_f : Fin nx → Fin nb → CQ) (w : Fin nx → CQ) : Fin nb → Fin nm → CQ :=
  matT (matmulC (matH Psi) (weightQ Q_hat_f w))

/- ## Shapes and file names of the persisted coefficient artifact -/

/-- numpy shape of `np.matmul` of matrices of shapes `a` and `b`. -/
def matmul_shape (a b : Nat × Nat) : Nat × Nat := (a.1, b.2)

/-- numpy shape of the matrix transpose. -/
def transpose_shape (a : Nat × Nat) : Nat × Nat := (a.2, a.1)

/-- Shape of the matrix saved by `get_coefficients` (spod_base.py lines
820-833): `Psi.reshape(-1, n_modes_save)` has shape `(nx, n_modes_save)`,
`Q_hat_f` has shape `(nx, n_blocks)`, and the saved array is
`np.matmul(Psi.T, Q_hat_f * weights).T`. -/
def coeff_saved_shape (nx nb nm : Nat) : Nat × Nat :=
  transpose_shape (matmul_shape (transpose_shape (nx, nm)) (nx, nb))

/-- File name of the persisted coefficient artifact,
`'coeffs1to{:04d}_freq{:04d}.npy'.format(n_modes_save, iFreq)`
(spod_base.py line 832). -/
def coeff_filename (n_modes_save iFreq : Nat) : String :=
  "coeffs1to" ++ format04 n_modes_save ++ "_freq" ++ format04 iFreq ++ ".npy"

/- ## Emulator Data Preparer (`SPOD_base.build_emulator`) -/

/-- The four tensors produced by `build_emulator`. -/
structure EmulatorData (T : Type) where
  training_ip : List T
  training_op : List T
  testing_ip : List T
  testing_op : List T

/-- Bit length of `M`, i.e. `⌊log2 M⌋ + 1` for `M ≥ 1` and `0` for `M = 0`,
computed as the number of exponents `i` with `2^i ≤ M`.  The search bound
106 covers every `M < 2^106`, ample for `0.7 * n_blocks` at any reachable
block count. -/
def bit_length (M : Nat) : Nat := ((List.range 106).filter (fun i => 2 ^ i ≤ M)).length

/-- Round `M / 2^s` to the nearest integer, ties to even (the IEEE-754
rounding of a positive value to a coarser binade). -/
def roundHalfEven (M s : Nat) : Nat :=
  if s = 0 then M
  else
    let q := M / 2 ^ s
    let r := M % 2 ^ s
    let half := 2 ^ (s - 1)
    if r < half then q
    else if half < r then q + 1
    else if q % 2 = 0 then q else q + 1

/-- Python's `int(0.7 * n)` under IEEE-754 double semantics (valid for
`n < 2^53`, where `n` converts to double exactly): the literal `0.7` is the
double `3152519739159347 / 2^52`; the product with `n` is formed exactly and
rounded to 53 significant bits (round to nearest, ties to even); `int()`
truncates the positive result toward zero.  With `M = 3152519739159347 * n`
of bit length `L`, the rounded mantissa is `M / 2^(L-53)` rounded half to
even, and the truncation divides by the remaining `2^(52-(L-53))`.
This is not `⌊7n/10⌋`: e.g. `int(0.7*330) = 230` while `⌊7*330/10⌋ = 231`. -/
def int_float_07_mul (n : Nat) : Nat :=
  let M := 3152519739159347 * n
  if M = 0 then 0
  else
    let s := bit_length M - 53
    let m := roundHalfEven M s
    m / 2 ^ (52 - s)

/-- The pairing and splitting logic of `SPOD_base.build_emulator`
(spod_base.py lines 849-867): `input_block[sample] = tensor[sample]` and
`output_block[sample] = tensor[sample+1]` for `sample in range(n_blocks-1)`,
then the first `num_train_blocks = int(0.7*self._n_blocks)` pairs (IEEE
double semantics, `int_float_07_mul`) are training and the rest testing.
`tensor` is the block-indexed training tensor `emulator_prep_data`. -/
def build_emulator {T : Type} (n_blocks : Nat) (tensor : Nat → T) : EmulatorData T :=
  let input_block := (List.range (n_blocks - 1)).map tensor
  let output_block := (List.range (n_blocks - 1)).map (fun sample => tensor (sample + 1))
  let num_train_blocks := int_float_07_mul n_blocks
  { training_ip := input_block.take num_train_blocks
    training_op := output_block.take num_train_blocks
    testing_ip := input_block.drop num_train_blocks
    testing_op := output_block.drop num_train_blocks }

/- ## Confidence-interval setup (`SPOD_base.__init__`, lines 94-103) -/

/-- The confidence-interval setup of `SPOD_base.__init__` (spod_base.py lines
94-103): if the key `'conf_level'` is present in the parameter mapping (with
any value `v`, which the code never reads), the stored confidence level is
the constant `0.95` and the chi-squared multipliers are
`2*gammaincinv(n_blocks, 1-0.95)` and `2*gammaincinv(n_blocks, 0.95)`;
absent the key, nothing is set up.  `g` abstracts
`scipy.special.gammaincinv`.  Returns `(conf_level, xi2_upper, xi2_lower)`. -/
def conf_setup (g : Nat → ℚ → ℚ) (n_blocks : Nat) : Option ℚ → Option (ℚ × ℚ × ℚ)
  | some _ => some (95 / 100, 2 * g n_blocks (1 - 95 / 100), 2 * g n_blocks (95 / 100))
  | none => none

/- ## Concrete instances used by counterexamples and witnesses -/

/-- A filesystem holding 5 of the 6 FFT-block files of a run with
`n_blocks = 3`, `n_freq = 2` (`fft_block0002_freq0001.npy` is missing). -/
def fs_five : String → Bool := fun s =>
  ["fft_block0000_freq0000.npy", "fft_block0000_freq0001.npy",
   "fft_block0001_freq0000.npy", "fft_block0001_freq0001.npy",
   "fft_block0002_freq0000.npy"].contains s

/-- A 1x1 mode matrix whose single entry is the imaginary unit `i`. -/
def psi_imag : Fin 1 → Fin 1 → CQ := fun _ _ => ((0 : ℚ), (1 : ℚ))

/-- A 1x1 FFT-block matrix whose single entry is `1`. -/
def q_unit : Fin 1 → Fin 1 → CQ := fun _ _ => ((1 : ℚ), (0 : ℚ))

/-- A weight column equal to `1`. -/
def w_unit : Fin 1 → CQ := fun _ => ((1 : ℚ), (0 : ℚ))

/- ## Claim theorems -/

/-- C4: the longtime mean of a constant field.  When `nt` is **not**
divisible by `n_blocks` the chunked summation covers each time frame exactly
once and the mean of the constant field `1` is exactly `1` (here `nt = 5`,
`n_blocks = 2`); but when `nt` **is** divisible by `n_blocks` (here `nt = 4`,
`n_blocks = 2`) the final remainder call has `t_0 == t_end == nt`, the data
handler's single-sample convention then reads time index `nt`, which is out
of bounds, and the computation fails (`IndexError`) instead of returning the
constant — the claim fails in exactly the divisible case it includes. -/
theorem longtime_mean_constant_field :
    longtime_mean 4 (List.replicate 4 (fun _ : Unit => (1 : ℚ))) 2 = none ∧
    (longtime_mean 5 (List.replicate 5 (fun _ : Unit => (1 : ℚ))) 2).map (fun f => f ()) =
      some 1 := by
  constructor
  · rfl
  · have h : (longtime_mean 5 (List.replicate 5 (fun _ : Unit => (1 : ℚ))) 2).map
        (fun f => f ()) =
        some (((List.replicate 5 (fun _ : Unit => (1 : ℚ))).map (fun f => f ())).sum / 5) := rfl
    rw [h]
    norm_num

/-- C5: for `n_blocks ≥ 2` and `n_freq ≥ 1`, `_are_blocks_present` returns
`true` iff every one of the `n_blocks * n_freq` files
`fft_block{:04d}_freq{:04d}.npy` exists; any strict subset yields `false`. -/
theorem are_blocks_present_iff_all (n_blocks n_freq : Nat) (fs : String → Bool)
    (_hb : 2 ≤ n_blocks) (_hf : 1 ≤ n_freq) :
    are_blocks_present n_blocks n_freq fs = true ↔
      ∀ b < n_blocks, ∀ f < n_freq, fs (fft_filename b f) = true := by
  simp only [are_blocks_present, decide_eq_true_eq]
  rw [count_fold_range_eq_iff]
  exact forall_congr' fun b => forall_congr' fun _ => count_fold_range_eq_iff _ n_freq

/-- Witness for C5: with `n_blocks = 3`, `n_freq = 2` and only 5 of the 6
required files present, the check returns `false`. -/
theorem are_blocks_present_iff_all_witness :
    are_blocks_present 3 2 fs_five = false := by
  have h := are_blocks_present_iff_all 3 2 fs_five (by decide) (by decide)
  have hnot : ¬ ∀ b < 3, ∀ f < 2, fs_five (fft_filename b f) = true := by decide
  cases hab : are_blocks_present 3 2 fs_five
  · rfl
  · exact absurd (h.mp hab) hnot

/-- C10: when the key `'conf_level'` is present, the stored confidence level
is the constant `0.95` irrespective of the supplied value, and two runs
differing only in that value produce identical confidence levels and
chi-squared multipliers. -/
theorem conf_setup_ignores_value (g : Nat → ℚ → ℚ) (n_blocks : Nat) (v1 v2 : ℚ) :
    conf_setup g n_blocks (some v1) = conf_setup g n_blocks (some v2) ∧
    conf_setup g n_blocks (some v1) =
      some (95 / 100, 2 * g n_blocks (1 - 95 / 100), 2 * g n_blocks (95 / 100)) :=
  ⟨rfl, rfl⟩

/-- C1 counterexample: at `nx = n_blocks = n_modes_save = 1` with
`Psi = [[i]]`, `Q_hat_f = [[1]]` and unit weights, the code's
`np.matmul(Psi.T, Q_hat_f * weights).T` yields `i`, while the conjugate
transpose `(Psi^H (Q_hat_f ⊙ w))^T` claimed by the spec yields `-i`:
`get_coefficients` uses the plain transpose, not the conjugate transpose. -/
theorem get_coefficients_no_conjugation :
    get_coefficients_a_k psi_imag q_unit w_unit 0 0 = ((0 : ℚ), (1 : ℚ)) ∧
    a_k_spec_conjugate psi_imag q_unit w_unit 0 0 = ((0 : ℚ), (-1 : ℚ)) ∧
    (((0 : ℚ), (1 : ℚ)) : CQ) ≠ (((0 : ℚ), (-1 : ℚ)) : CQ) := by
  refine ⟨?_, ?_, ?_⟩
  · norm_num [get_coefficients_a_k, matmulC, matT, weightQ, csum, cadd, cmul,
      psi_imag, q_unit, w_unit, List.finRange_succ_eq_map, List.finRange_zero]
  · norm_num [a_k_spec_conjugate, matmulC, matT, matH, cconj, weightQ, csum, cadd, cmul,
      psi_imag, q_unit, w_unit, List.finRange_succ_eq_map, List.finRange_zero]
  · norm_num [Prod.ext_iff]

/-- C1 (amended): for every frequency, the coefficient matrix is
`a_k = (Psi^T · (Q_hat_f ⊙ weights))^T` — the plain transpose (no
conjugation) of the loaded mode matrix applied to the elementwise-weighted
FFT-block matrix (weights applied to `Q_hat_f`, not to `Psi`), of shape
`(n_blocks, n_modes_save)`: entry `(b, m)` is
`Σ_x Psi[x,m] * (Q_hat_f[x,b] * w[x])`. -/
theorem get_coefficients_a_k_formula {nx nb nm : Nat}
    (Psi : Fin nx → Fin nm → CQ) (Q_hat_f : Fin nx → Fin nb → CQ)
    (w : Fin nx → CQ) (b : Fin nb) (m : Fin nm) :
    get_coefficients_a_k Psi Q_hat_f w b m =
      csum ((List.finRange nx).map (fun x => cmul (Psi x m) (cmul (Q_hat_f x b) (w x)))) :=
  rfl

/-- C9 counterexample: the matrix persisted under
`coeffs1to{:04d}_freq{:04d}.npy` has numpy shape
`(n_blocks, n_modes_save)` — at `nx = 3`, `n_blocks = 2`,
`n_modes_save = 1` it is `(2, 1)`, not the `(n_modes_save, n_blocks) = (1, 2)`
the claim states. -/
theorem coeff_saved_shape_not_modes_first :
    coeff_saved_shape 3 2 1 = (2, 1) ∧ ((2, 1) : Nat × Nat) ≠ ((1, 2) : Nat × Nat) :=
  ⟨rfl, by decide⟩

/-- C9 (amended): for every frequency index, the coefficient matrix persisted
under `coeffs1to{n_modes_save:04d}_freq{frequency_index:04d}.npy` is a complex
matrix of shape `(n_blocks, n_modes_save)`. -/
theorem coeff_artifact_spec :
    (∀ nx nb nm : Nat, coeff_saved_shape nx nb nm = (nb, nm)) ∧
    coeff_filename 1 0 = "coeffs1to0001_freq0000.npy" ∧
    coeff_filename 12 345 = "coeffs1to0012_freq0345.npy" :=
  ⟨fun _ _ _ => rfl, by decide, by decide⟩

/-- C6 counterexample: at `n_blocks = 10` the code builds 9 pairs but takes
`int(0.7*10) = 7` of them for training (and 2 for testing) — the IEEE double
product `0.7*10` is exactly `7.0` — not the 6/3 split the claim states. -/
theorem build_emulator_ten_is_seven_two :
    (build_emulator 10 (fun s => s)).training_ip.length = 7 ∧
    (build_emulator 10 (fun s => s)).testing_ip.length = 2 ∧
    ((7 : Nat) ≠ 6 ∧ (2 : Nat) ≠ 3) := by
  refine ⟨by decide, by decide, by decide, by decide⟩

/-- C6 (amended): `build_emulator` builds exactly `n_blocks - 1`
`(input, output)` pairs with `input[sample] = tensor[sample]` and
`output[sample] = tensor[sample+1]`, splits them chronologically with the
first `int(0.7*n_blocks)` pairs (IEEE double semantics) as training and the
remainder as testing, and for `n_blocks = 10` — where `0.7*10` rounds to
exactly `7.0` — produces 9 pairs, 7 training and 2 testing, with no pair
omitted or duplicated. -/
theorem build_emulator_pairs_spec {T : Type} (tensor : Nat → T) (n_blocks : Nat) :
    (build_emulator n_blocks tensor).training_ip ++ (build_emulator n_blocks tensor).testing_ip =
      (List.range (n_blocks - 1)).map tensor ∧
    (build_emulator n_blocks tensor).training_op ++ (build_emulator n_blocks tensor).testing_op =
      (List.range (n_blocks - 1)).map (fun sample => tensor (sample + 1)) ∧
    (build_emulator n_blocks tensor).training_ip.length =
      min (int_float_07_mul n_blocks) (n_blocks - 1) ∧
    (build_emulator 10 tensor).training_ip.length = 7 ∧
    (build_emulator 10 tensor).testing_ip.length = 2 ∧
    (build_emulator 10 tensor).training_ip.length +
      (build_emulator 10 tensor).testing_ip.length = 9 := by
  refine ⟨List.take_append_drop _ _, List.take_append_drop _ _, ?_, ?_, ?_, ?_⟩
  · simp [build_emulator]
  · simp only [build_emulator, List.length_take, List.length_map, List.length_range]
    decide
  · simp only [build_emulator, List.length_drop, List.length_map, List.length_range]
    decide
  · simp only [build_emulator, List.length_take, List.length_drop, List.length_map,
      List.length_range]
    decide

/-- The IEEE split count really diverges from the exact rational floor at
reachable block counts: `int(0.7*330) = 230` while `⌊7*330/10⌋ = 231` (the
double product `0.7*330` is `230.99999999999997`). -/
theorem int_float_07_mul_not_exact_floor :
    int_float_07_mul 330 = 230 ∧ 7 * 330 / 10 = 231 ∧ (230 : Nat) ≠ 231 := by
  refine ⟨by decide, by decide, by decide⟩

/-- C7 counterexample: the string `'zero'` is not an accepted mean keyword —
`parse_parameters` accepts only `'longtime'`, `'blockwise'` and `'0'` on the
string branch, so `mean='zero'` raises a `ValueError` instead of returning a
scalar 0 with a warning. -/
theorem resolve_mean_zero_string_rejected :
    resolve_mean 4 2 ([] : List (Unit → ℚ)) (.str "zero") = .error "not recognized." :=
  rfl

/-- C7 (amended): the discouraged no-mean policy is selected by the string
`'0'` (named `'zero'` in the resolved configuration): it succeeds with a
scalar mean of `0` and a non-fatal warning, while the literal string
`'zero'` raises a `ValueError`. -/
theorem resolve_mean_zero_policy {ι : Type} (nt n_blocks : Nat) (data : List (ι → ℚ)) :
    resolve_mean nt n_blocks data (.str "0") = .ok (.inr 0, "zero", true) ∧
    resolve_mean nt n_blocks data (.str "zero") = .error "not recognized." :=
  ⟨rfl, rfl⟩

/-- C8 counterexample: a provided weights array whose shape is already
`(nx, nv)` — here `nx = nv = 2`, shape `(2, 2)`, size `4 = nx*nv` — is kept
with shape `(2, 2)` and is not reshaped to `(nx*nv, 1) = (4, 1)` as the
claim states. -/
theorem resolve_weights_shape_kept :
    resolve_weights 2 2 (some ⟨[2, 2], [1, 2, 3, 4]⟩) =
      .ok (⟨[2, 2], [1, 2, 3, 4]⟩, "user-specified") ∧
    ([2, 2] : List Nat) ≠ [4, 1] := by
  refine ⟨?_, by decide⟩
  norm_num [resolve_weights]

/-- C8 (amended): a provided weights array whose total size differs from
`nx*nv` raises a configuration error (never truncates or pads); one whose
size equals `nx*nv` is reshaped to `(nx*nv, 1)` unless its shape is already
`(nx, nv)`, in which case it is returned unchanged; absent weights default
to uniform ones of shape `(nx*nv, 1)`. -/
theorem resolve_weights_spec (nx nv : Nat) (w : NDArray) :
    resolve_weights nx nv none =
      .ok (⟨[nx * nv, 1], List.replicate (nx * nv) 1⟩, "uniform") ∧
    (w.data.length ≠ nx * nv → resolve_weights nx nv (some w) =
      .error "parameter weights must have the same spatial dimensions as data.") ∧
    (w.data.length = nx * nv → w.shape ≠ [nx, nv] → resolve_weights nx nv (some w) =
      .ok (⟨[nx * nv, 1], w.data⟩, "user-specified")) ∧
    (w.data.length = nx * nv → w.shape = [nx, nv] → resolve_weights nx nv (some w) =
      .ok (w, "user-specified")) := by
  refine ⟨rfl, fun h => ?_, fun h1 h2 => ?_, fun h1 h2 => ?_⟩
  · simp [resolve_weights, h]
  · simp [resolve_weights, h1, h2]
  · simp [resolve_weights, h1, h2]

/-- Witness for C8: a shape-`(1, 2)` array of size `2 = 2*1` is reshaped to
`(2, 1)`, and a size-3 array with `nx*nv = 4` raises. -/
theorem resolve_weights_spec_witness :
    resolve_weights 2 1 (some ⟨[1, 2], [5, 6]⟩) =
      .ok (⟨[2 * 1, 1], [5, 6]⟩, "user-specified") ∧
    resolve_weights 2 2 (some ⟨[3], [7, 8, 9]⟩) =
      .error "parameter weights must have the same spatial dimensions as data." :=
  ⟨(resolve_weights_spec 2 1 ⟨[1, 2], [5, 6]⟩).2.2.1 (by decide) (by decide),
   (resolve_weights_spec 2 2 ⟨[3], [7, 8, 9]⟩).2.1 (by decide)⟩

/-- C2: whenever `parse_parameters` accepts its `(nt, n_FFT, n_overlap)`
inputs, the returned `n_blocks` equals
`floor((nt - n_overlap)/(n_DFT - n_overlap))` (with `n_DFT` and `n_overlap`
the resolved window length and overlap) and satisfies `n_blocks ≥ 2` with
`n_DFT ≥ 4`; whenever `n_DFT < 4` or the computed `n_blocks < 2`, resolution
raises a configuration error instead of returning. -/
theorem parse_spectral_nblocks :
    (∀ (nt : Nat) (w : WindowParam) (o : OverlapParam) (d nov nblk : Int),
        parse_spectral nt w o = .ok (d, nov, nblk) →
          nblk = ⌊((nt : ℚ) - resolved_nov nt w o) /
              (resolved_nDFT nt w - resolved_nov nt w o)⌋ ∧
            2 ≤ nblk ∧ 4 ≤ d) ∧
    (∀ (nt : Nat) (w : WindowParam) (o : OverlapParam),
        resolved_nDFT nt w < 4 ∨ resolved_nblocks nt w o < 2 →
          ∃ e, parse_spectral nt w o = .error e) := by
  have key : ∀ (nt : Nat) (w : WindowParam) (o : OverlapParam) (d nov nblk : Int),
      (if resolved_nDFT nt w < 4 ∨ resolved_nblocks nt w o < 2 then
          (Except.error "Spectral estimation parameters not meaningful." :
            Except String (Int × Int × Int))
        else .ok (⌊resolved_nDFT nt w⌋, ⌊resolved_nov nt w o⌋, ⌊resolved_nblocks nt w o⌋)) =
          .ok (d, nov, nblk) →
        nblk = ⌊((nt : ℚ) - resolved_nov nt w o) /
            (resolved_nDFT nt w - resolved_nov nt w o)⌋ ∧
          2 ≤ nblk ∧ 4 ≤ d := by
    intro nt w o d nov nblk h
    split at h
    · exact absurd h (by simp)
    · rename_i hcond
      rw [not_or, not_lt, not_lt] at hcond
      obtain ⟨h4, h2⟩ := hcond
      rw [Except.ok.injEq, Prod.mk.injEq, Prod.mk.injEq] at h
      obtain ⟨hd, hnov, hblk⟩ := h
      refine ⟨?_, ?_, ?_⟩
      · rw [← hblk]
        simp [resolved_nblocks]
      · rw [← hblk]
        have : ((2 : Int) : ℚ) ≤ resolved_nblocks nt w o := by exact_mod_cast h2
        rw [resolved_nblocks] at this
        have h2' : (2 : Int) ≤ ⌊((nt : ℚ) - resolved_nov nt w o) /
            (resolved_nDFT nt w - resolved_nov nt w o)⌋ := by exact_mod_cast this
        simpa [resolved_nblocks] using h2'
      · rw [← hd]
        exact Int.le_floor.mpr (by exact_mod_cast h4)
  constructor
  · intro nt w o d nov nblk h
    cases o with
    | odefault => exact key nt w .odefault d nov nblk h
    | val v =>
      simp only [parse_spectral] at h
      split at h
      · exact absurd h (by simp)
      · exact key nt w (.val v) d nov nblk h
  · intro nt w o h
    cases o with
    | odefault =>
      refine ⟨"Spectral estimation parameters not meaningful.", ?_⟩
      simp only [parse_spectral]
      rw [if_pos h]
    | val v =>
      by_cases hv : (v : ℚ) > resolved_nDFT nt w - 1
      · refine ⟨"Overlap is too large", ?_⟩
        simp only [parse_spectral]
        rw [if_pos hv]
      · refine ⟨"Spectral estimation parameters not meaningful.", ?_⟩
        simp only [parse_spectral]
        rw [if_neg hv, if_pos h]

/-- C3: the claim's one-sided convention and even two-sided wrap hold, but
its odd two-sided wrap never happens: line 422's slice index
`(n_DFT+1)/2+1` is a float under `from __future__ import division`, so the
program raises a `TypeError` for every odd `n_DFT` with complex data
instead of wrapping the bins at `(n_DFT+1)/2+1`.  Here: the failing input
`n_DFT = 5, dt = 1` (and `n_DFT = 7, dt = 1/2`) raises; the one-sided axis
for `n_DFT = 8, dt = 1` is `[0, 0.125, 0.25, 0.375, 0.5]` (5 bins); the
even-two-sided axis for `n_DFT = 4, dt = 1` wraps the bin at index
`4/2 + 1 = 3` to `3/4 - 1 = -1/4` as claimed. -/
theorem freq_axis_two_sided_odd_raises :
    freq_axis false 5 1 = .error "TypeError: slice indices must be integers" ∧
    freq_axis false 7 (1/2) = .error "TypeError: slice indices must be integers" ∧
    freq_axis true 8 1 = .ok [0, 1/8, 1/4, 3/8, 1/2] ∧
    freq_axis false 4 1 = .ok [0, 1/4, 1/2, -(1/4)] := by
  refine ⟨rfl, rfl, ?_, ?_⟩
  · norm_num [freq_axis, List.range_succ]
  · norm_num [freq_axis, List.range_succ]

/-- Witness for C2: `nt = 100`, window length 8, default overlap resolves to
`n_DFT = 8`, `n_overlap = 4`, `n_blocks = floor(96/4) = 24 ≥ 2`; and
`nt = 5` with window length `3 < 4` is rejected. -/
theorem parse_spectral_nblocks_witness :
    ((24 : Int) = ⌊((100 : ℚ) - resolved_nov 100 (.ofInt 8) .odefault) /
        (resolved_nDFT 100 (.ofInt 8) - resolved_nov 100 (.ofInt 8) .odefault)⌋ ∧
      (2 : Int) ≤ 24 ∧ (4 : Int) ≤ 8) ∧
    (∃ e, parse_spectral 5 (.ofInt 3) (.val 0) = .error e) :=
  ⟨parse_spectral_nblocks.1 100 (.ofInt 8) .odefault 8 4 24 (by
      norm_num [parse_spectral, resolved_nDFT, resolved_nov, resolved_nblocks]),
   parse_spectral_nblocks.2 5 (.ofInt 3) (.val 0)
      (Or.inl (by norm_num [resolved_nDFT]))⟩
